import Mathlib

set_option maxRecDepth 8192

/-!
Verification of the `pulp_tofu` plugin's synchronization and publishing
tasks.  The definitions below are a shallow embedding of
`pulp_tofu/app/tasks/synchronizing.py`, `pulp_tofu/app/tasks/publishing.py`
and the structural facts of `pulp_tofu/app/models.py` /
`pulp_tofu/app/migrations/0001_initial.py`.

Network interaction is modelled by a `Registry` record of oracles: each
oracle maps the requested URL to either a parsed JSON document
(`Except.ok`) or `Except.error ()`, the latter standing for the
downloader raising an exception (transport failure, HTTP error status,
or a JSON parse failure).  Logging and the `ProgressReport` side effects
are reified as an event trace.
-/

/-- Glob matching on character lists, as produced by Python's
`fnmatch.fnmatch`: `*` matches any run of characters (including `/`),
`?` matches exactly one character, every other character matches itself.
Character classes are not modelled; the spec's pattern language (§4.1)
defines only `*` and `?`. -/
def globMatch : List Char → List Char → Bool
  | [], [] => true
  | [], _ :: _ => false
  | '*' :: ps, [] => globMatch ps []
  | '*' :: ps, c :: cs => globMatch ps (c :: cs) || globMatch ('*' :: ps) cs
  | '?' :: _, [] => false
  | '?' :: ps, _ :: cs => globMatch ps cs
  | _ :: _, [] => false
  | p :: ps, c :: cs => p == c && globMatch ps cs
termination_by p s => (s.length, p.length)

/-- Python `fnmatch.fnmatch(name, pattern)` (POSIX case normalization is
the identity). -/
def fnmatch (name pattern : String) : Bool :=
  globMatch pattern.data name.data

/-- Python `s.endswith(suffix)`. -/
def py_endswith (s suffix : String) : Bool :=
  suffix.data.isSuffixOf s.data

/-- Python `s.startswith(pre)`. -/
def py_startswith (s pre : String) : Bool :=
  pre.data.isPrefixOf s.data

/-- Python `s.rstrip("/")`. -/
def py_rstrip_slash (s : String) : String :=
  ⟨(s.data.reverse.dropWhile (fun c => c == '/')).reverse⟩

/-- Python `s.split(sep)` for a one-character separator, on character
lists: the empty string splits to `[""]`, and adjacent separators
produce empty fields, as in Python. -/
def py_split_chars (sep : Char) : List Char → List (List Char)
  | [] => [[]]
  | c :: rest =>
    let r := py_split_chars sep rest
    if c == sep then [] :: r
    else
      match r with
      | [] => [[c]]
      | h :: t => (c :: h) :: t

/-- Python `s.split(sep)` for a one-character separator. -/
def py_split (s : String) (sep : Char) : List String :=
  (py_split_chars sep s.data).map (fun l => ⟨l⟩)

/-- Models Python `urljoin(base.rstrip("/") + "/", rel)` as used at
`synchronizing.py` lines 209-212 and 282-285, for a relative reference
`rel` that contains no `.`/`..` segments and a base URL carrying a
scheme: under these conditions `urljoin` appends `rel` to the
slash-terminated base. -/
def urljoin_rel (base rel : String) : String :=
  py_rstrip_slash base ++ "/" ++ rel

/-- Models `f"{parsed.scheme}://{parsed.netloc}"` with
`parsed = urlparse(url)` (`synchronizing.py` lines 151-153), for URLs of
the form `scheme://netloc/path...`: the scheme is everything before the
first `:`, the netloc everything after `://` up to the next `/`. -/
def url_origin (url : String) : String :=
  let scheme := url.data.takeWhile (fun c => c != ':')
  let rest := url.data.drop (scheme.length + 3)
  (⟨scheme⟩ : String) ++ "://" ++ (⟨rest.takeWhile (fun c => c != '/')⟩ : String)

/-- Models `urlparse(url).scheme` for URLs of the form
`scheme://netloc/path...`: everything before the first `:`. -/
def url_scheme (url : String) : String :=
  ⟨url.data.takeWhile (fun c => c != ':')⟩

/-- Download policy of a remote (`pulpcore` `Remote.policy`). -/
inductive Policy where
  | immediate
  | onDemand
  | streamed
deriving DecidableEq

/-- The configuration the sync task reads from the remote: `remote.url`,
`remote.includes`, `remote.excludes` (read at `synchronizing.py` lines
134, 174, 190) and `remote.policy` (read at line 43).  The
includes/excludes fields are given to the stage as the task's code reads
them; whether the `TofuRemote` model actually declares them is a
separate structural fact settled below. -/
structure RemoteCfg where
  url : String
  includes : List String
  excludes : List String
  policy : Policy
deriving DecidableEq

/-- Parsed service-discovery document; `modulesV1` is
`discovery.get("modules.v1")`, `none` when the key is absent. -/
structure DiscoveryDoc where
  modulesV1 : Option String
deriving DecidableEq

/-- One entry of a versions listing; `version` is
`version_info.get("version")`. -/
structure VersionEntry where
  version : Option String
deriving DecidableEq

/-- One entry of `versions_data.get("modules", [])`; `versions` is
`modules[i].get("versions", [])`. -/
structure ModuleEntry where
  versions : List VersionEntry
deriving DecidableEq

/-- Parsed response of the `{address}/versions` endpoint. -/
structure VersionsDoc where
  modules : List ModuleEntry
deriving DecidableEq

/-- Parsed response of the `{address}/{version}/download` endpoint;
`location` is `download_data.get("location")`. -/
structure DownloadDoc where
  location : Option String
deriving DecidableEq

/-- The remote registry as three URL-indexed oracles, one per document
kind the sync task fetches.  `Except.error ()` stands for the downloader
(or the subsequent `json.load`) raising an exception. -/
structure Registry where
  discovery : String → Except Unit DiscoveryDoc
  versions : String → Except Unit VersionsDoc
  download : String → Except Unit DownloadDoc

/-- The in-memory content unit constructed at `synchronizing.py` lines
312-318.  (The Python class `TofuContent` is imported from
`pulp_tofu.app.models`, which defines no such class; the structure
records the fields of the constructor call as written.) -/
structure TofuContent where
  namespace_ : String
  name : String
  system : String
  version : String
  download_url : String
deriving DecidableEq

/-- The `DeclarativeArtifact` built at lines 324-330: its url, relative
path and deferred-download flag. -/
structure DeclarativeArtifactRec where
  url : String
  relative_path : String
  deferred_download : Bool
deriving DecidableEq

/-- The `DeclarativeContent` emitted at lines 333-334; the stage always
attaches exactly one artifact. -/
structure DeclarativeContentRec where
  content : TofuContent
  d_artifact : DeclarativeArtifactRec
deriving DecidableEq

/-- Observable side effects of one run of the first stage: log lines at
their locations in `synchronizing.py`, `DeclarativeContent` emissions
(`self.put`), and `progress_bar.increment()` calls. -/
inductive Event where
  | skipExcluded (spec : String)
  | invalidSpec (spec : String)
  | moduleFailed (spec : String)
  | noVersions (ns nm sys : String)
  | versionFailed (ns nm sys ver : String)
  | missingLocation (ns nm sys ver : String)
  | declared (dc : DeclarativeContentRec)
  | progressIncrement
deriving DecidableEq

/-- Result of a completed (non-raising) `TofuFirstStage.run`:
whether the `No modules specified` warning fired (line 84), the
`ProgressReport` total (`none` when the bar was never created), and the
event trace. -/
structure RunResult where
  warned_no_modules : Bool
  progress_total : Option Nat
  events : List Event
deriving DecidableEq

/-- Embeds `TofuFirstStage._discover_registry_endpoint` (lines 124-159).
`Except.error ()` stands for an exception escaping the coroutine: the
discovery download failing, or the `ValueError` raised when the
document carries no usable `modules.v1` value.  The line-154
`urljoin(f"{scheme}://{netloc}", modules_endpoint)` resolves a
`//`-prefixed endpoint as a network-path reference: when the
reference's own netloc (the run after `//` up to the next `/`) is
non-empty it replaces the host and the base contributes only its
scheme, while an empty reference netloc keeps the base host with the
remainder as path; a single-`/` endpoint is an absolute path appended
to the origin.  The model covers endpoint values whose path has no
`.`/`..` segments (which `urljoin` would normalize away). -/
def discover_registry_endpoint (reg : Registry) (url : String) : Except Unit String :=
  if py_endswith url "/.well-known/terraform.json" || py_endswith url ".well-known/terraform.json" then
    match reg.discovery url with
    | .error e => .error e
    | .ok doc =>
      match doc.modulesV1 with
      | none => .error ()
      | some ep =>
        if ep.isEmpty then .error ()
        else if py_startswith ep "/" then
          if py_startswith ep "//" then
            if ((ep.data.drop 2).takeWhile (fun c => c != '/')).isEmpty then
              .ok (url_origin url ++ (⟨ep.data.drop 2⟩ : String))
            else
              .ok (url_scheme url ++ ":" ++ ep)
          else
            .ok (url_origin url ++ ep)
        else
          .ok ep
  else
    .ok url

/-- Embeds `TofuFirstStage._parse_includes` (lines 161-178): returns
`self.remote.includes or []` unchanged (on a list value, `or []` is the
identity up to replacing an empty list by an empty list). -/
def parse_includes (remote : RemoteCfg) : List String :=
  remote.includes

/-- The `for pattern in excludes` loop of `TofuFirstStage._is_excluded`
(lines 192-196). -/
def is_excluded_loop (module_spec : String) : List String → Bool
  | [] => false
  | pattern :: rest =>
    if fnmatch module_spec pattern then true else is_excluded_loop module_spec rest

/-- Embeds `TofuFirstStage._is_excluded` (lines 180-196). -/
def is_excluded (remote : RemoteCfg) (module_spec : String) : Bool :=
  is_excluded_loop module_spec remote.excludes

/-- Embeds `TofuFirstStage._sync_module_version` (lines 270-340).
`Except.error ()` stands for an exception escaping the coroutine (the
download-descriptor fetch or its JSON parse failing); a missing or empty
`location` only logs the line-304 warning and returns. -/
def sync_module_version (reg : Registry) (deferred : Bool)
    (base ns nm sys version : String) : Except Unit (List Event) :=
  match reg.download (urljoin_rel base (ns ++ "/" ++ nm ++ "/" ++ sys ++ "/" ++ version ++ "/download")) with
  | .error e => .error e
  | .ok dd =>
    match dd.location with
    | none => .ok [.missingLocation ns nm sys version]
    | some loc =>
      if loc.isEmpty then .ok [.missingLocation ns nm sys version]
      else
        .ok [.declared
          { content :=
              { namespace_ := ns, name := nm, system := sys, version := version,
                download_url := loc },
            d_artifact :=
              { url := loc,
                relative_path := ns ++ "/" ++ nm ++ "/" ++ sys ++ "/" ++ version ++ "/module.tar.gz",
                deferred_download := deferred } }]

/-- Body of the `for version_info in versions` loop of
`TofuFirstStage._sync_module` (lines 250-268): a falsy `version` value
is skipped silently, an exception from `_sync_module_version` is caught,
logged (line 260) and the loop continues. -/
def sync_version_events (reg : Registry) (deferred : Bool)
    (base ns nm sys : String) (vi : VersionEntry) : List Event :=
  match vi.version with
  | none => []
  | some v =>
    if v.isEmpty then []
    else
      match sync_module_version reg deferred base ns nm sys v with
      | .ok evs => evs
      | .error _ => [.versionFailed ns nm sys v]

/-- Embeds `TofuFirstStage._sync_module` (lines 198-268).  `Except.error ()`
stands for an exception escaping the coroutine: the versions fetch or
its JSON parse failing (both happen before any content is emitted). -/
def sync_module (reg : Registry) (deferred : Bool)
    (base ns nm sys : String) : Except Unit (List Event) :=
  match reg.versions (urljoin_rel base (ns ++ "/" ++ nm ++ "/" ++ sys ++ "/versions")) with
  | .error e => .error e
  | .ok vd =>
    match vd.modules with
    | [] => .ok [.noVersions ns nm sys]
    | m :: _ =>
      .ok (m.versions.foldl
        (fun acc vi => acc ++ sync_version_events reg deferred base ns nm sys vi) [])

/-- Body of the `for module_spec in modules_to_sync` loop of
`TofuFirstStage.run` (lines 93-122): the three-way split happens before
the exclude check and raises `ValueError` on a spec that does not have
exactly three `/`-separated parts (caught at line 107); any other
exception from `_sync_module` is caught at line 115.  Every path ends in
exactly one `progress_bar.increment()`. -/
def sync_one_address (reg : Registry) (remote : RemoteCfg) (deferred : Bool)
    (base spec : String) : List Event :=
  match py_split spec '/' with
  | [ns, nm, sys] =>
    if is_excluded remote spec then
      [.skipExcluded spec, .progressIncrement]
    else
      match sync_module reg deferred base ns nm sys with
      | .ok evs => evs ++ [.progressIncrement]
      | .error _ => [.moduleFailed spec, .progressIncrement]
  | _ => [.invalidSpec spec, .progressIncrement]

/-- Embeds `TofuFirstStage.run` (lines 67-122).  Endpoint discovery happens
first and an exception there fails the run; the empty-includes check
follows; otherwise a `ProgressReport` with `total = len(modules_to_sync)`
is opened and the per-address loop runs to completion. -/
def stage_run (reg : Registry) (remote : RemoteCfg) (deferred : Bool) :
    Except Unit RunResult :=
  match discover_registry_endpoint reg remote.url with
  | .error e => .error e
  | .ok base =>
    let modulesToSync := parse_includes remote
    if modulesToSync.isEmpty then
      .ok { warned_no_modules := true, progress_total := none, events := [] }
    else
      .ok { warned_no_modules := false,
            progress_total := some modulesToSync.length,
            events := modulesToSync.foldl
              (fun acc spec => acc ++ sync_one_address reg remote deferred base spec) [] }

/-- Errors with which the `synchronize` task (or its enclosing module
load) can terminate. -/
inductive TaskError where
  | importError (name : String)
  | valueError
  | runError
deriving DecidableEq

/-- Computes `deferred_download = remote.policy != Remote.IMMEDIATE`
(`synchronizing.py` line 43). -/
def deferred_download (remote : RemoteCfg) : Bool :=
  match remote.policy with
  | .immediate => false
  | _ => true

/-- The body of `synchronize` (lines 21-45): fail with `ValueError` when
the remote has no url, otherwise drive the first stage.  The `mirror`
flag is passed through to the platform's `DeclarativeVersion` and does
not influence the stage itself. -/
def synchronize (reg : Registry) (remote : RemoteCfg) (mirror : Bool) :
    Except TaskError RunResult :=
  let _ := mirror
  if remote.url.isEmpty then .error .valueError
  else
    match stage_run reg remote (deferred_download remote) with
    | .ok r => .ok r
    | .error _ => .error .runError

/-- Top-level class names defined by `pulp_tofu/app/models.py`. -/
def models_module_classes : List String :=
  ["Provider", "TofuPublication", "TofuRemote", "TofuRepository", "TofuDistribution"]

/-- The names `synchronizing.py` line 15 imports from
`pulp_tofu.app.models`. -/
def synchronizing_imported_names : List String :=
  ["TofuContent", "TofuRemote"]

/-- Field names the `TofuRemote` model itself declares (migration
`0001_initial.py`: only the parent-link pointer). -/
def tofu_remote_declared_fields : List String :=
  ["remote_ptr"]

/-- Python `from M import a, b, ...`: binding the listed names in order,
raising `ImportError` at the first name the module does not define. -/
def import_from (defined : List String) : List String → Except String Unit
  | [] => .ok ()
  | n :: rest =>
    if defined.contains n then import_from defined rest else .error n

/-- Executing the `synchronize` task end to end: the task module must be
imported (evaluating `synchronizing.py` line 15) before the function
body can run at all. -/
def load_and_synchronize (reg : Registry) (remote : RemoteCfg) (mirror : Bool) :
    Except TaskError RunResult :=
  match import_from models_module_classes synchronizing_imported_names with
  | .error n => .error (.importError n)
  | .ok () => synchronize reg remote mirror

/-- The `DeclarativeContent` emissions of a trace, in order. -/
def declaredOf (events : List Event) : List DeclarativeContentRec :=
  events.filterMap (fun e =>
    match e with
    | .declared dc => some dc
    | _ => none)

/-- Discriminator for `progress_bar.increment()` events. -/
def isIncrement : Event → Bool
  | .progressIncrement => true
  | _ => false

/-- Number of `progress_bar.increment()` calls in a trace. -/
def countIncrements (events : List Event) : Nat :=
  (events.filter isIncrement).length

/-- A Provider content unit as read by `publishing.py` (identity plus the
fields its log lines mention; the artifact-irrelevant metadata fields of
the model are not read by `publish`). -/
structure ProviderUnit where
  pk : Nat
  namespace_ : String
  type_ : String
  version : String
  os : String
  arch : String
deriving DecidableEq

/-- A `ContentArtifact` row: its content foreign key and relative path. -/
structure ContentArtifactRec where
  content_pk : Nat
  relative_path : String
deriving DecidableEq

/-- A `PublishedArtifact` row created at `publishing.py` lines 54-58. -/
structure PublishedArtifactRec where
  relative_path : String
  content_artifact : ContentArtifactRec
deriving DecidableEq

/-- Outcome of `publish`: the created `PublishedArtifact` rows in loop
order, and the providers for which the line-70 `No artifact found`
warning fired. -/
structure PublishResult where
  published : List PublishedArtifactRec
  warnings : List ProviderUnit
deriving DecidableEq

/-- Embeds `ContentArtifact.objects.filter(content=content).first()`
(`publishing.py` line 49): the first artifact row, in table order,
whose content key matches. -/
def first_content_artifact (cas : List ContentArtifactRec) (content : ProviderUnit) :
    Option ContentArtifactRec :=
  cas.find? (fun ca => ca.content_pk == content.pk)

/-- Body of the `for content in content_qs` loop of `publish`
(lines 47-78). -/
def publish_step (cas : List ContentArtifactRec) (acc : PublishResult)
    (content : ProviderUnit) : PublishResult :=
  match first_content_artifact cas content with
  | some ca =>
    { acc with published :=
        acc.published ++ [{ relative_path := ca.relative_path, content_artifact := ca }] }
  | none => { acc with warnings := acc.warnings ++ [content] }

/-- Embeds `publish` (`publishing.py` lines 16-81), over the Providers of the
repository version and the `ContentArtifact` table. -/
def publish (providers : List ProviderUnit) (cas : List ContentArtifactRec) :
    PublishResult :=
  providers.foldl (publish_step cas) { published := [], warnings := [] }

/-- A registry on which every request raises. -/
def emptyRegistry : Registry where
  discovery := fun _ => .error ()
  versions := fun _ => .error ()
  download := fun _ => .error ()

/-- A registry serving only the spec's example discovery document. -/
def c5Registry : Registry where
  discovery := fun u =>
    if u = "https://host/.well-known/terraform.json" then .ok ⟨some "/v1/modules/"⟩
    else .error ()
  versions := fun _ => .error ()
  download := fun _ => .error ()

/-- A registry whose discovery document carries a protocol-relative
(network-path) `modules.v1` value. -/
def c5NetworkPathRegistry : Registry where
  discovery := fun u =>
    if u = "https://host/.well-known/terraform.json" then
      .ok ⟨some "//cdn.example/v1/"⟩
    else .error ()
  versions := fun _ => .error ()
  download := fun _ => .error ()

/-- A registry serving the C1 scenario. -/
def c1Registry : Registry where
  discovery := fun _ => .error ()
  versions := fun u =>
    if u = "https://registry.example/v1/modules/hashicorp/consul/aws/versions" then
      .ok ⟨[⟨[⟨some "1.0.0"⟩, ⟨some "1.1.0"⟩]⟩]⟩
    else .error ()
  download := fun u =>
    if u = "https://registry.example/v1/modules/hashicorp/consul/aws/1.0.0/download" then
      .ok ⟨some "https://cdn.example/consul-1.0.0.tar.gz"⟩
    else if u = "https://registry.example/v1/modules/hashicorp/consul/aws/1.1.0/download" then
      .ok ⟨some "https://cdn.example/consul-1.1.0.tar.gz"⟩
    else .error ()

/-- A registry serving the C3 scenario, with the 404 on the second
address. -/
def c3Registry : Registry where
  discovery := fun _ => .error ()
  versions := fun u =>
    if u = "https://registry.example/v1/modules/alpha/one/aws/versions" then
      .ok ⟨[⟨[⟨some "1.0.0"⟩]⟩]⟩
    else if u = "https://registry.example/v1/modules/gamma/three/aws/versions" then
      .ok ⟨[⟨[⟨some "2.0.0"⟩]⟩]⟩
    else .error ()
  download := fun u =>
    if u = "https://registry.example/v1/modules/alpha/one/aws/1.0.0/download" then
      .ok ⟨some "https://cdn.example/one-1.0.0.tar.gz"⟩
    else if u = "https://registry.example/v1/modules/gamma/three/aws/2.0.0/download" then
      .ok ⟨some "https://cdn.example/three-2.0.0.tar.gz"⟩
    else .error ()

/-- A registry serving the C7 scenario: version 1.0.0's descriptor has
no location. -/
def c7Registry : Registry where
  discovery := fun _ => .error ()
  versions := fun u =>
    if u = "https://registry.example/v1/modules/hashicorp/consul/aws/versions" then
      .ok ⟨[⟨[⟨some "1.0.0"⟩, ⟨some "1.1.0"⟩]⟩]⟩
    else .error ()
  download := fun u =>
    if u = "https://registry.example/v1/modules/hashicorp/consul/aws/1.0.0/download" then
      .ok ⟨none⟩
    else if u = "https://registry.example/v1/modules/hashicorp/consul/aws/1.1.0/download" then
      .ok ⟨some "https://cdn.example/consul-1.1.0.tar.gz"⟩
    else .error ()

section HelperLemmas

/-- A left fold that appends a block per element produces the
concatenation of the blocks. -/
lemma foldl_append_eq {α β : Type} (f : α → List β) (l : List α) : ∀ init : List β,
    l.foldl (fun acc x => acc ++ f x) init = init ++ (l.map f).flatten := by
  induction l with
  | nil => intro init; simp
  | cons x xs ih => intro init; simp [List.foldl_cons, ih, List.append_assoc]

/-- The exclude loop is the boolean `any` of `fnmatch` over the list. -/
lemma is_excluded_loop_eq_any (spec : String) (l : List String) :
    is_excluded_loop spec l = l.any (fun p => fnmatch spec p) := by
  induction l with
  | nil => rfl
  | cons p rest ih =>
    simp only [is_excluded_loop, List.any_cons, ih]
    cases h : fnmatch spec p <;> simp [h]

lemma countIncrements_append (a b : List Event) :
    countIncrements (a ++ b) = countIncrements a + countIncrements b := by
  simp [countIncrements, List.filter_append]

lemma countIncrements_cons (e : Event) (l : List Event) :
    countIncrements (e :: l) =
      (if isIncrement e then 1 else 0) + countIncrements l := by
  cases h : isIncrement e <;>
    simp only [countIncrements, List.filter_cons, h, if_true, if_false,
      List.length_cons, Bool.false_eq_true, ite_false, ite_true] <;>
    omega

lemma declaredOf_append (a b : List Event) :
    declaredOf (a ++ b) = declaredOf a ++ declaredOf b := by
  simp [declaredOf, List.filterMap_append]

/-- The counter of increments over the trace prefix is monotone. -/
lemma countIncrements_take_le (l : List Event) : ∀ n m : Nat, n ≤ m →
    countIncrements (l.take n) ≤ countIncrements (l.take m) := by
  induction l with
  | nil => intro n m _; simp [List.take_nil]
  | cons e rest ih =>
    intro n m h
    cases n with
    | zero => simp [countIncrements]
    | succ k =>
      cases m with
      | zero => omega
      | succ j =>
        simp only [List.take_succ_cons, countIncrements_cons]
        have := ih k j (by omega)
        omega

/-- An exception escaping `_sync_module_version` happens before any
event is produced; a successful call never touches the progress bar. -/
lemma sync_module_version_no_increment (reg : Registry) (deferred : Bool)
    (base ns nm sys v : String) (evs : List Event)
    (h : sync_module_version reg deferred base ns nm sys v = .ok evs) :
    countIncrements evs = 0 := by
  unfold sync_module_version at h
  split at h
  · exact absurd h (by simp)
  · split at h
    · cases h; rfl
    · split at h <;> cases h <;> rfl

/-- The per-version loop body never touches the progress bar. -/
lemma countIncrements_sync_version_events (reg : Registry) (deferred : Bool)
    (base ns nm sys : String) (vi : VersionEntry) :
    countIncrements (sync_version_events reg deferred base ns nm sys vi) = 0 := by
  unfold sync_version_events
  split
  · rfl
  · split
    · rfl
    · split
      · exact sync_module_version_no_increment _ _ _ _ _ _ _ _ ‹_›
      · rfl

/-- The events of `_sync_module` never touch the progress bar. -/
lemma sync_module_no_increment (reg : Registry) (deferred : Bool)
    (base ns nm sys : String) (evs : List Event)
    (h : sync_module reg deferred base ns nm sys = .ok evs) :
    countIncrements evs = 0 := by
  unfold sync_module at h
  split at h
  · exact absurd h (by simp)
  · split at h
    · cases h; rfl
    · cases h
      rw [foldl_append_eq]
      simp only [List.nil_append]
      generalize (‹ModuleEntry›.versions) = vs
      induction vs with
      | nil => rfl
      | cons vi rest ih =>
        simp [List.map_cons, List.flatten_cons, countIncrements_append, ih,
          countIncrements_sync_version_events]

/-- Every path through the per-address loop body calls
`progress_bar.increment()` exactly once. -/
lemma countIncrements_sync_one_address (reg : Registry) (remote : RemoteCfg)
    (deferred : Bool) (base spec : String) :
    countIncrements (sync_one_address reg remote deferred base spec) = 1 := by
  unfold sync_one_address
  split
  · split
    · rfl
    · split
      · rw [countIncrements_append]
        rw [sync_module_no_increment _ _ _ _ _ _ _ ‹_›]
        rfl
      · rfl
  · rfl

end HelperLemmas

section DiscoveryLemmas

/-- A url that does not end in the well-known suffix is taken directly
as the API base, without consulting the registry. -/
lemma discover_not_wellknown (reg : Registry) (url : String)
    (h1 : py_endswith url "/.well-known/terraform.json" = false)
    (h2 : py_endswith url ".well-known/terraform.json" = false) :
    discover_registry_endpoint reg url = .ok url := by
  simp [discover_registry_endpoint, h1, h2]

/-- On a discovery url the endpoint comes from the fetched document. -/
lemma discover_wellknown (reg : Registry) (url : String)
    (h : py_endswith url ".well-known/terraform.json" = true) :
    discover_registry_endpoint reg url =
      (match reg.discovery url with
       | .error e => .error e
       | .ok doc =>
         match doc.modulesV1 with
         | none => .error ()
         | some ep =>
           if ep.isEmpty then .error ()
           else if py_startswith ep "/" then
             if py_startswith ep "//" then
               if ((ep.data.drop 2).takeWhile (fun c => c != '/')).isEmpty then
                 .ok (url_origin url ++ (⟨ep.data.drop 2⟩ : String))
               else .ok (url_scheme url ++ ":" ++ ep)
             else .ok (url_origin url ++ ep)
           else .ok ep) := by
  simp [discover_registry_endpoint, h]

end DiscoveryLemmas


section PublishLemmas

/-- Unfolded characterization of the publish loop for any accumulator. -/
lemma publish_foldl_spec (cas : List ContentArtifactRec) (providers : List ProviderUnit) :
    ∀ acc : PublishResult,
    providers.foldl (publish_step cas) acc =
      { published := acc.published ++ providers.filterMap
          (fun p => (first_content_artifact cas p).map
            (fun ca => { relative_path := ca.relative_path, content_artifact := ca })),
        warnings := acc.warnings ++ providers.filter
          (fun p => (first_content_artifact cas p).isNone) } := by
  induction providers with
  | nil => intro acc; simp
  | cons p ps ih =>
    intro acc
    rw [List.foldl_cons, ih]
    cases hfa : first_content_artifact cas p <;>
      simp [publish_step, hfa, List.filterMap_cons, List.filter_cons, List.append_assoc]

/-- Taking the first of the filtered artifact rows succeeds exactly when some
row references the provider. -/
lemma first_content_artifact_isSome (cas : List ContentArtifactRec) (p : ProviderUnit) :
    (first_content_artifact cas p).isSome = cas.any (fun ca => ca.content_pk == p.pk) := by
  induction cas with
  | nil => rfl
  | cons ca rest ih =>
    unfold first_content_artifact at ih ⊢
    cases h : (ca.content_pk == p.pk) <;> simp [List.find?_cons, h, ih]

/-- Mapping the payload of an option-valued function does not change how
many list elements survive `filterMap`. -/
lemma length_filterMap_option_map {α β γ : Type} (g : α → Option β) (f : β → γ)
    (l : List α) :
    (l.filterMap (fun x => (g x).map f)).length =
      (l.filter (fun x => (g x).isSome)).length := by
  induction l with
  | nil => rfl
  | cons x xs ih =>
    cases h : g x <;> simp [List.filterMap_cons, List.filter_cons, h, ih]

end PublishLemmas

section PipelineLemmas

/-- A download descriptor carrying a non-empty location produces exactly
one declared content unit, at the module's canonical relative path. -/
lemma sync_module_version_ok (reg : Registry) (deferred : Bool)
    (base ns nm sys v loc : String)
    (hd : reg.download (urljoin_rel base (ns ++ "/" ++ nm ++ "/" ++ sys ++ "/" ++ v ++ "/download"))
        = .ok ⟨some loc⟩)
    (hloc : loc.isEmpty = false) :
    sync_module_version reg deferred base ns nm sys v =
      .ok [.declared
        ⟨⟨ns, nm, sys, v, loc⟩,
         ⟨loc, ns ++ "/" ++ nm ++ "/" ++ sys ++ "/" ++ v ++ "/module.tar.gz", deferred⟩⟩] := by
  unfold sync_module_version
  rw [hd]
  simp [hloc]

/-- A download descriptor without the `location` field yields the
line-304 warning and no content. -/
lemma sync_module_version_missing (reg : Registry) (deferred : Bool)
    (base ns nm sys v : String)
    (hd : reg.download (urljoin_rel base (ns ++ "/" ++ nm ++ "/" ++ sys ++ "/" ++ v ++ "/download"))
        = .ok ⟨none⟩) :
    sync_module_version reg deferred base ns nm sys v =
      .ok [.missingLocation ns nm sys v] := by
  unfold sync_module_version
  rw [hd]

/-- A versions listing with a single module entry drives the per-version
loop over that entry's versions. -/
lemma sync_module_ok (reg : Registry) (deferred : Bool) (base ns nm sys : String)
    (entries : List VersionEntry)
    (hv : reg.versions (urljoin_rel base (ns ++ "/" ++ nm ++ "/" ++ sys ++ "/versions"))
        = .ok ⟨[⟨entries⟩]⟩) :
    sync_module reg deferred base ns nm sys =
      .ok (entries.foldl
        (fun acc vi => acc ++ sync_version_events reg deferred base ns nm sys vi) []) := by
  unfold sync_module
  rw [hv]

/-- A failing versions fetch propagates out of `_sync_module`. -/
lemma sync_module_err (reg : Registry) (deferred : Bool) (base ns nm sys : String)
    (hv : reg.versions (urljoin_rel base (ns ++ "/" ++ nm ++ "/" ++ sys ++ "/versions"))
        = .error ()) :
    sync_module reg deferred base ns nm sys = .error () := by
  unfold sync_module
  rw [hv]

/-- The per-address loop body on a well-formed, non-excluded spec. -/
lemma sync_one_address_eq (reg : Registry) (remote : RemoteCfg) (deferred : Bool)
    (base spec ns nm sys : String)
    (hsplit : py_split spec '/' = [ns, nm, sys])
    (hexc : is_excluded remote spec = false) :
    sync_one_address reg remote deferred base spec =
      (match sync_module reg deferred base ns nm sys with
       | .ok evs => evs ++ [.progressIncrement]
       | .error _ => [.moduleFailed spec, .progressIncrement]) := by
  unfold sync_one_address
  rw [hsplit]
  simp [hexc]

/-- The run after a successful discovery, with a non-empty include
list. -/
lemma stage_run_eq (reg : Registry) (remote : RemoteCfg) (deferred : Bool) (base : String)
    (hdisc : discover_registry_endpoint reg remote.url = .ok base)
    (hne : remote.includes.isEmpty = false) :
    stage_run reg remote deferred =
      .ok { warned_no_modules := false,
            progress_total := some remote.includes.length,
            events := remote.includes.foldl
              (fun acc spec => acc ++ sync_one_address reg remote deferred base spec) [] } := by
  unfold stage_run
  rw [hdisc]
  simp [parse_includes, hne]

/-- A trace built from blocks of one increment each counts one increment
per block. -/
lemma countIncrements_flatten_map_one {α : Type} (f : α → List Event)
    (h : ∀ x, countIncrements (f x) = 1) (l : List α) :
    countIncrements ((l.map f).flatten) = l.length := by
  induction l with
  | nil => rfl
  | cons x xs ih =>
    simp [List.map_cons, List.flatten_cons, countIncrements_append, h, ih]
    omega

end PipelineLemmas

/-- C4: for every exclude list `E` and address `A`, `_is_excluded` is
true iff some pattern of `E` glob-matches `A`; the verdict is
independent of the include list (and of every other remote field); an
empty exclude list never excludes; and an excluded address contributes
no `DeclarativeContent` in the per-address loop, whatever its include
status. -/
theorem c4_exclude_semantics (u : String) (inc E : List String) (pol : Policy) (A : String) :
    (is_excluded ⟨u, inc, E, pol⟩ A = true ↔ ∃ p ∈ E, fnmatch A p = true)
    ∧ (∀ (u2 : String) (inc2 : List String) (pol2 : Policy),
        is_excluded ⟨u2, inc2, E, pol2⟩ A = is_excluded ⟨u, inc, E, pol⟩ A)
    ∧ is_excluded ⟨u, inc, [], pol⟩ A = false
    ∧ (∀ (reg : Registry) (deferred : Bool) (base : String),
        is_excluded ⟨u, inc, E, pol⟩ A = true →
        declaredOf (sync_one_address reg ⟨u, inc, E, pol⟩ deferred base A) = []) := by
  refine ⟨?_, fun _ _ _ => rfl, rfl, ?_⟩
  · show is_excluded_loop A E = true ↔ _
    rw [is_excluded_loop_eq_any, List.any_eq_true]
  · intro reg deferred base hex
    unfold sync_one_address
    split
    · rw [if_pos hex]
      rfl
    · rfl

/-- C2: evaluating the sync task module fails at `synchronizing.py`
line 15, because `pulp_tofu.app.models` defines no class named
`TofuContent`; hence every invocation of `synchronize`, in particular
one with a non-empty remote url, errors out before any
`DeclarativeContent` can be emitted.  Moreover the `TofuRemote` model
itself declares neither an `includes` nor an `excludes` field. -/
theorem c2_broken_import (reg : Registry) (remote : RemoteCfg) (mirror : Bool)
    (_hurl : remote.url ≠ "") :
    load_and_synchronize reg remote mirror = .error (.importError "TofuContent")
    ∧ "TofuContent" ∉ models_module_classes
    ∧ "includes" ∉ tofu_remote_declared_fields
    ∧ "excludes" ∉ tofu_remote_declared_fields
    ∧ ∀ r : RunResult, load_and_synchronize reg remote mirror ≠ .ok r := by
  refine ⟨rfl, by decide, by decide, by decide, ?_⟩
  intro r hr
  rw [show load_and_synchronize reg remote mirror
      = .error (.importError "TofuContent") from rfl] at hr
  exact absurd hr (by simp)

/-- Witness for C2 at a concrete remote and registry. -/
theorem c2_broken_import_witness :
    (⟨"https://registry.example", [], [], Policy.immediate⟩ : RemoteCfg).url ≠ ""
    ∧ load_and_synchronize emptyRegistry
        ⟨"https://registry.example", [], [], Policy.immediate⟩ true
        = .error (.importError "TofuContent") :=
  ⟨by decide,
   (c2_broken_import emptyRegistry
     ⟨"https://registry.example", [], [], Policy.immediate⟩ true (by decide)).1⟩

/-- C6: with an empty remote url, `synchronize` raises its `ValueError`
immediately; the outcome is the same for every registry, so no network
request is observable, and no run result (hence no repository version)
is ever produced. -/
theorem c6_empty_url_fails_fast (reg : Registry) (remote : RemoteCfg) (mirror : Bool)
    (h : remote.url = "") :
    synchronize reg remote mirror = .error .valueError
    ∧ (∀ reg2 : Registry, synchronize reg2 remote mirror = synchronize reg remote mirror)
    ∧ ∀ r : RunResult, synchronize reg remote mirror ≠ .ok r := by
  have key : ∀ reg3 : Registry, synchronize reg3 remote mirror = .error .valueError := by
    intro reg3
    unfold synchronize
    rw [h]
    rfl
  refine ⟨key reg, fun reg2 => by rw [key reg2, key reg], ?_⟩
  intro r hr
  rw [key reg] at hr
  exact absurd hr (by simp)

/-- Witness for C6 at a concrete remote and registry. -/
theorem c6_empty_url_fails_fast_witness :
    (⟨"", ["hashicorp/consul/aws"], [], Policy.immediate⟩ : RemoteCfg).url = ""
    ∧ synchronize emptyRegistry
        ⟨"", ["hashicorp/consul/aws"], [], Policy.immediate⟩ false
        = .error .valueError :=
  ⟨rfl,
   (c6_empty_url_fails_fast emptyRegistry
     ⟨"", ["hashicorp/consul/aws"], [], Policy.immediate⟩ false rfl).1⟩


/-- C10: `publish` completes on every repository version: a provider
without any `ContentArtifact` only fires the line-70 warning, and each
provider with at least one artifact yields exactly one
`PublishedArtifact`, built from its first artifact row and bound at that
row's relative path. -/
theorem c10_publish_spec (providers : List ProviderUnit) (cas : List ContentArtifactRec) :
    (publish providers cas).published = providers.filterMap
        (fun p => (first_content_artifact cas p).map
          (fun ca => { relative_path := ca.relative_path, content_artifact := ca }))
    ∧ (publish providers cas).warnings =
        providers.filter (fun p => (first_content_artifact cas p).isNone)
    ∧ (publish providers cas).published.length =
        (providers.filter (fun p => cas.any (fun ca => ca.content_pk == p.pk))).length
    ∧ (∀ pa ∈ (publish providers cas).published,
        pa.relative_path = pa.content_artifact.relative_path
        ∧ pa.content_artifact ∈ cas
        ∧ ∃ p ∈ providers, first_content_artifact cas p = some pa.content_artifact)
    ∧ (∀ p ∈ providers, (first_content_artifact cas p).isNone = true →
        p ∈ (publish providers cas).warnings) := by
  have hpub : (publish providers cas).published = providers.filterMap
      (fun p => (first_content_artifact cas p).map
        (fun ca => { relative_path := ca.relative_path, content_artifact := ca })) := by
    rw [publish, publish_foldl_spec]
    simp
  have hwarn : (publish providers cas).warnings =
      providers.filter (fun p => (first_content_artifact cas p).isNone) := by
    rw [publish, publish_foldl_spec]
    simp
  refine ⟨hpub, hwarn, ?_, ?_, ?_⟩
  · rw [hpub, length_filterMap_option_map]
    congr 1
    apply List.filter_congr
    intro p _
    exact first_content_artifact_isSome cas p
  · intro pa hpa
    rw [hpub] at hpa
    rcases List.mem_filterMap.mp hpa with ⟨p, hp, hmap⟩
    rcases Option.map_eq_some'.mp hmap with ⟨ca, hfind, hmk⟩
    subst hmk
    exact ⟨rfl, List.mem_of_find?_eq_some hfind, ⟨p, hp, hfind⟩⟩
  · intro p hp hnone
    rw [hwarn]
    exact List.mem_filter.mpr ⟨hp, by simp [hnone]⟩


/-- C8, as stated, is false: the empty-includes check of
`TofuFirstStage.run` runs only after endpoint discovery, so a remote
whose url is a service-discovery document that fails to resolve makes
the run raise even though the include list is empty. -/
theorem c8_counterexample :
    (⟨"https://host/.well-known/terraform.json", [], [], Policy.immediate⟩ : RemoteCfg).includes = []
    ∧ stage_run emptyRegistry
        ⟨"https://host/.well-known/terraform.json", [], [], Policy.immediate⟩ false
        = .error () :=
  ⟨rfl, rfl⟩

/-- C8 (amended): if endpoint discovery succeeds (in particular whenever
the url is not a discovery document) and the include list is empty, the
run completes as a no-op: it warns, creates no progress bar, emits no
events, and its outcome is the same under every registry that resolves
discovery — so no per-address request is observable. -/
theorem c8_empty_includes_noop (reg : Registry) (remote : RemoteCfg) (deferred : Bool)
    (hinc : remote.includes = []) (base : String)
    (hdisc : discover_registry_endpoint reg remote.url = .ok base) :
    stage_run reg remote deferred
      = .ok { warned_no_modules := true, progress_total := none, events := [] }
    ∧ ∀ (reg2 : Registry) (b2 : String),
        discover_registry_endpoint reg2 remote.url = .ok b2 →
        stage_run reg2 remote deferred = stage_run reg remote deferred := by
  have key : ∀ (reg3 : Registry) (b3 : String),
      discover_registry_endpoint reg3 remote.url = .ok b3 →
      stage_run reg3 remote deferred
        = .ok { warned_no_modules := true, progress_total := none, events := [] } := by
    intro reg3 b3 h3
    unfold stage_run
    rw [h3]
    simp [parse_includes, hinc]
  exact ⟨key reg base hdisc,
    fun reg2 b2 h2 => by rw [key reg2 b2 h2, key reg base hdisc]⟩

/-- Witness for the amended C8 at a concrete remote and registry. -/
theorem c8_empty_includes_noop_witness :
    (⟨"https://registry.example/v1/modules", [], [], Policy.immediate⟩ : RemoteCfg).includes = []
    ∧ discover_registry_endpoint emptyRegistry "https://registry.example/v1/modules"
        = .ok "https://registry.example/v1/modules"
    ∧ stage_run emptyRegistry
        ⟨"https://registry.example/v1/modules", [], [], Policy.immediate⟩ false
        = .ok { warned_no_modules := true, progress_total := none, events := [] } :=
  ⟨rfl, rfl,
   (c8_empty_includes_noop emptyRegistry
     ⟨"https://registry.example/v1/modules", [], [], Policy.immediate⟩ false rfl
     "https://registry.example/v1/modules" rfl).1⟩

/-- C9: on a run that reaches the loop, the progress total is the number
of addresses in the include list (not of versions); every path through
the loop body increments exactly once, so the final counter equals that
total; and the counter over any trace prefix is monotone — it never
decreases or resets. -/
theorem c9_progress_counter (reg : Registry) (remote : RemoteCfg) (deferred : Bool)
    (r : RunResult) (hrun : stage_run reg remote deferred = .ok r)
    (hne : remote.includes ≠ []) :
    r.progress_total = some remote.includes.length
    ∧ countIncrements r.events = remote.includes.length
    ∧ (∀ base spec, countIncrements (sync_one_address reg remote deferred base spec) = 1)
    ∧ ∀ n m : Nat, n ≤ m →
        countIncrements (r.events.take n) ≤ countIncrements (r.events.take m) := by
  have hfalse : remote.includes.isEmpty = false := by
    cases hl : remote.includes with
    | nil => exact absurd hl hne
    | cons a l => rfl
  unfold stage_run at hrun
  split at hrun
  · exact absurd hrun (by simp)
  · simp only [parse_includes, hfalse, Bool.false_eq_true, if_false] at hrun
    rw [Except.ok.injEq] at hrun
    subst hrun
    refine ⟨rfl, ?_, ?_, ?_⟩
    · show countIncrements (remote.includes.foldl _ []) = _
      rw [foldl_append_eq, List.nil_append]
      exact countIncrements_flatten_map_one _
        (fun spec => countIncrements_sync_one_address reg remote deferred _ spec) _
    · exact fun base spec => countIncrements_sync_one_address reg remote deferred base spec
    · exact fun n m h => countIncrements_take_le _ n m h

/-- Witness for C9 at a concrete remote and registry. -/
theorem c9_progress_counter_witness :
    (⟨"https://registry.example/v1/modules", ["hashicorp/consul/aws"], [],
        Policy.immediate⟩ : RemoteCfg).includes ≠ []
    ∧ stage_run emptyRegistry
        ⟨"https://registry.example/v1/modules", ["hashicorp/consul/aws"], [],
          Policy.immediate⟩ false
        = .ok { warned_no_modules := false, progress_total := some 1,
                events := [Event.moduleFailed "hashicorp/consul/aws",
                           Event.progressIncrement] }
    ∧ (some 1 : Option Nat) = some 1 :=
  ⟨by decide, rfl,
   (c9_progress_counter emptyRegistry
     ⟨"https://registry.example/v1/modules", ["hashicorp/consul/aws"], [],
       Policy.immediate⟩ false
     { warned_no_modules := false, progress_total := some 1,
       events := [Event.moduleFailed "hashicorp/consul/aws", Event.progressIncrement] }
     rfl (by decide)).1⟩

/-- C5, as stated, fails on protocol-relative endpoint values: for the
relative `modules.v1` value `//cdn.example/v1/` fetched from
`https://host/.well-known/terraform.json`, the line-154 `urljoin`
treats it as a network-path reference, keeping only the scheme and
replacing the host, so the resolved base is `https://cdn.example/v1/`
and not the origin followed by the endpoint. -/
theorem c5_counterexample :
    c5NetworkPathRegistry.discovery "https://host/.well-known/terraform.json"
      = .ok ⟨some "//cdn.example/v1/"⟩
    ∧ py_startswith "//cdn.example/v1/" "/" = true
    ∧ discover_registry_endpoint c5NetworkPathRegistry
        "https://host/.well-known/terraform.json"
      = .ok "https://cdn.example/v1/"
    ∧ discover_registry_endpoint c5NetworkPathRegistry
        "https://host/.well-known/terraform.json"
      ≠ .ok ("https://host" ++ "//cdn.example/v1/") := by
  refine ⟨rfl, rfl, rfl, ?_⟩
  intro h
  rw [show discover_registry_endpoint c5NetworkPathRegistry
      "https://host/.well-known/terraform.json"
      = .ok "https://cdn.example/v1/" from rfl] at h
  exact absurd (Except.ok.inj h) (by decide)

/-- C5 (amended): a `modules.v1` value that begins with `/` but not
`//` is resolved against the discovery url's scheme and host only — for
the spec's example document the base is the origin followed by the
endpoint path — while a configured url that is not a discovery document
is returned unchanged as the API base, for any registry. -/
theorem c5_discovery_resolution (reg reg2 : Registry) (ep u2 : String)
    (hdoc : reg.discovery "https://host/.well-known/terraform.json" = .ok ⟨some ep⟩)
    (hne : ep.isEmpty = false) (habs : py_startswith ep "/" = true)
    (hnp : py_startswith ep "//" = false)
    (h1 : py_endswith u2 "/.well-known/terraform.json" = false)
    (h2 : py_endswith u2 ".well-known/terraform.json" = false) :
    discover_registry_endpoint reg "https://host/.well-known/terraform.json"
      = .ok ("https://host" ++ ep)
    ∧ discover_registry_endpoint reg2 u2 = .ok u2 := by
  constructor
  · rw [discover_wellknown reg _ (by decide), hdoc]
    simp only [hne, habs, hnp, Bool.false_eq_true, if_false, if_true]
    show Except.ok (url_origin "https://host/.well-known/terraform.json" ++ ep) = _
    rw [show url_origin "https://host/.well-known/terraform.json" = "https://host" from rfl]
  · exact discover_not_wellknown reg2 u2 h1 h2

/-- Witness for the amended C5 at the spec's example document. -/
theorem c5_discovery_resolution_witness :
    c5Registry.discovery "https://host/.well-known/terraform.json"
      = .ok ⟨some "/v1/modules/"⟩
    ∧ py_startswith "/v1/modules/" "//" = false
    ∧ discover_registry_endpoint c5Registry "https://host/.well-known/terraform.json"
      = .ok "https://host/v1/modules/" :=
  ⟨rfl, rfl,
   (c5_discovery_resolution c5Registry c5Registry "/v1/modules/" "https://example.org/api"
     rfl rfl (by decide) (by decide) (by decide) (by decide)).1⟩

/-- C1: syncing the single include `hashicorp/consul/aws` against a
registry listing exactly versions 1.0.0 and 1.1.0, each with a valid
download location, declares exactly two content units, both addressed
`hashicorp/consul/aws` and each bound to the relative path
`namespace/name/system/version/module.tar.gz`. -/
theorem c1_two_content_records (reg : Registry) (deferred : Bool) (pol : Policy)
    (loc1 loc2 : String)
    (hv : reg.versions "https://registry.example/v1/modules/hashicorp/consul/aws/versions"
        = .ok ⟨[⟨[⟨some "1.0.0"⟩, ⟨some "1.1.0"⟩]⟩]⟩)
    (hd1 : reg.download "https://registry.example/v1/modules/hashicorp/consul/aws/1.0.0/download"
        = .ok ⟨some loc1⟩)
    (hd2 : reg.download "https://registry.example/v1/modules/hashicorp/consul/aws/1.1.0/download"
        = .ok ⟨some loc2⟩)
    (h1 : loc1.isEmpty = false) (h2 : loc2.isEmpty = false) :
    ∃ r : RunResult,
      stage_run reg
        ⟨"https://registry.example/v1/modules", ["hashicorp/consul/aws"], [], pol⟩ deferred
        = .ok r
      ∧ declaredOf r.events =
          [⟨⟨"hashicorp", "consul", "aws", "1.0.0", loc1⟩,
            ⟨loc1, "hashicorp/consul/aws/1.0.0/module.tar.gz", deferred⟩⟩,
           ⟨⟨"hashicorp", "consul", "aws", "1.1.0", loc2⟩,
            ⟨loc2, "hashicorp/consul/aws/1.1.0/module.tar.gz", deferred⟩⟩]
      ∧ (declaredOf r.events).length = 2
      ∧ ∀ dc ∈ declaredOf r.events,
          dc.content.namespace_ = "hashicorp" ∧ dc.content.name = "consul"
          ∧ dc.content.system = "aws" := by
  have hsmv1 := sync_module_version_ok reg deferred "https://registry.example/v1/modules"
    "hashicorp" "consul" "aws" "1.0.0" loc1 hd1 h1
  have hsmv2 := sync_module_version_ok reg deferred "https://registry.example/v1/modules"
    "hashicorp" "consul" "aws" "1.1.0" loc2 hd2 h2
  have hrun : stage_run reg
      ⟨"https://registry.example/v1/modules", ["hashicorp/consul/aws"], [], pol⟩ deferred
      = .ok { warned_no_modules := false, progress_total := some 1,
              events :=
                [.declared ⟨⟨"hashicorp", "consul", "aws", "1.0.0", loc1⟩,
                   ⟨loc1, "hashicorp/consul/aws/1.0.0/module.tar.gz", deferred⟩⟩,
                 .declared ⟨⟨"hashicorp", "consul", "aws", "1.1.0", loc2⟩,
                   ⟨loc2, "hashicorp/consul/aws/1.1.0/module.tar.gz", deferred⟩⟩,
                 .progressIncrement] } := by
    rw [stage_run_eq reg
      ⟨"https://registry.example/v1/modules", ["hashicorp/consul/aws"], [], pol⟩ deferred
      "https://registry.example/v1/modules"
      (discover_not_wellknown reg "https://registry.example/v1/modules"
        (by decide) (by decide)) rfl]
    simp only [List.foldl_cons, List.foldl_nil, List.nil_append]
    rw [sync_one_address_eq reg
      ⟨"https://registry.example/v1/modules", ["hashicorp/consul/aws"], [], pol⟩ deferred
      "https://registry.example/v1/modules" "hashicorp/consul/aws"
      "hashicorp" "consul" "aws" (by decide) rfl]
    rw [sync_module_ok reg deferred "https://registry.example/v1/modules"
      "hashicorp" "consul" "aws" [⟨some "1.0.0"⟩, ⟨some "1.1.0"⟩] hv]
    simp only [List.foldl_cons, List.foldl_nil, List.nil_append, sync_version_events]
    rw [hsmv1, hsmv2]
    rfl
  refine ⟨_, hrun, rfl, rfl, ?_⟩
  intro dc hdc
  simp only [declaredOf, List.filterMap_cons, List.filterMap_nil,
    List.mem_cons, List.not_mem_nil, or_false] at hdc
  rcases hdc with rfl | rfl
  · exact ⟨rfl, rfl, rfl⟩
  · exact ⟨rfl, rfl, rfl⟩

/-- Witness for C1 on a concrete registry. -/
theorem c1_two_content_records_witness :
    c1Registry.versions "https://registry.example/v1/modules/hashicorp/consul/aws/versions"
      = .ok ⟨[⟨[⟨some "1.0.0"⟩, ⟨some "1.1.0"⟩]⟩]⟩
    ∧ ("https://cdn.example/consul-1.0.0.tar.gz" : String).isEmpty = false
    ∧ ∃ r : RunResult,
        stage_run c1Registry
          ⟨"https://registry.example/v1/modules", ["hashicorp/consul/aws"], [],
            Policy.immediate⟩ false
          = .ok r
        ∧ (declaredOf r.events).length = 2 :=
  ⟨rfl, rfl, by
    obtain ⟨r, hr, _, hlen, _⟩ := c1_two_content_records c1Registry false Policy.immediate
      "https://cdn.example/consul-1.0.0.tar.gz" "https://cdn.example/consul-1.1.0.tar.gz"
      rfl rfl rfl rfl rfl
    exact ⟨r, hr, hlen⟩⟩

/-- C3: when one of three configured addresses fails its versions
listing (the fetch raises, e.g. on HTTP 404), the run does not fail:
the failing address is logged and skipped, the counter still covers all
three addresses, and the declared content is exactly that of the two
addresses that succeeded. -/
theorem c3_partial_failure (reg : Registry) (deferred : Bool) (pol : Policy)
    (locA locC : String)
    (hvA : reg.versions "https://registry.example/v1/modules/alpha/one/aws/versions"
        = .ok ⟨[⟨[⟨some "1.0.0"⟩]⟩]⟩)
    (hvB : reg.versions "https://registry.example/v1/modules/beta/two/aws/versions"
        = .error ())
    (hvC : reg.versions "https://registry.example/v1/modules/gamma/three/aws/versions"
        = .ok ⟨[⟨[⟨some "2.0.0"⟩]⟩]⟩)
    (hdA : reg.download "https://registry.example/v1/modules/alpha/one/aws/1.0.0/download"
        = .ok ⟨some locA⟩)
    (hdC : reg.download "https://registry.example/v1/modules/gamma/three/aws/2.0.0/download"
        = .ok ⟨some locC⟩)
    (hA : locA.isEmpty = false) (hC : locC.isEmpty = false) :
    ∃ r : RunResult,
      stage_run reg
        ⟨"https://registry.example/v1/modules",
          ["alpha/one/aws", "beta/two/aws", "gamma/three/aws"], [], pol⟩ deferred
        = .ok r
      ∧ declaredOf r.events =
          [⟨⟨"alpha", "one", "aws", "1.0.0", locA⟩,
            ⟨locA, "alpha/one/aws/1.0.0/module.tar.gz", deferred⟩⟩,
           ⟨⟨"gamma", "three", "aws", "2.0.0", locC⟩,
            ⟨locC, "gamma/three/aws/2.0.0/module.tar.gz", deferred⟩⟩]
      ∧ Event.moduleFailed "beta/two/aws" ∈ r.events
      ∧ r.progress_total = some 3 := by
  have hsmvA := sync_module_version_ok reg deferred "https://registry.example/v1/modules"
    "alpha" "one" "aws" "1.0.0" locA hdA hA
  have hsmvC := sync_module_version_ok reg deferred "https://registry.example/v1/modules"
    "gamma" "three" "aws" "2.0.0" locC hdC hC
  have hrun : stage_run reg
      ⟨"https://registry.example/v1/modules",
        ["alpha/one/aws", "beta/two/aws", "gamma/three/aws"], [], pol⟩ deferred
      = .ok { warned_no_modules := false, progress_total := some 3,
              events :=
                [.declared ⟨⟨"alpha", "one", "aws", "1.0.0", locA⟩,
                   ⟨locA, "alpha/one/aws/1.0.0/module.tar.gz", deferred⟩⟩,
                 .progressIncrement,
                 .moduleFailed "beta/two/aws",
                 .progressIncrement,
                 .declared ⟨⟨"gamma", "three", "aws", "2.0.0", locC⟩,
                   ⟨locC, "gamma/three/aws/2.0.0/module.tar.gz", deferred⟩⟩,
                 .progressIncrement] } := by
    rw [stage_run_eq reg
      ⟨"https://registry.example/v1/modules",
        ["alpha/one/aws", "beta/two/aws", "gamma/three/aws"], [], pol⟩ deferred
      "https://registry.example/v1/modules"
      (discover_not_wellknown reg "https://registry.example/v1/modules"
        (by decide) (by decide)) rfl]
    simp only [List.foldl_cons, List.foldl_nil, List.nil_append]
    rw [sync_one_address_eq reg
      ⟨"https://registry.example/v1/modules",
        ["alpha/one/aws", "beta/two/aws", "gamma/three/aws"], [], pol⟩ deferred
      "https://registry.example/v1/modules" "alpha/one/aws"
      "alpha" "one" "aws" (by decide) rfl]
    rw [sync_one_address_eq reg
      ⟨"https://registry.example/v1/modules",
        ["alpha/one/aws", "beta/two/aws", "gamma/three/aws"], [], pol⟩ deferred
      "https://registry.example/v1/modules" "beta/two/aws"
      "beta" "two" "aws" (by decide) rfl]
    rw [sync_one_address_eq reg
      ⟨"https://registry.example/v1/modules",
        ["alpha/one/aws", "beta/two/aws", "gamma/three/aws"], [], pol⟩ deferred
      "https://registry.example/v1/modules" "gamma/three/aws"
      "gamma" "three" "aws" (by decide) rfl]
    rw [sync_module_ok reg deferred "https://registry.example/v1/modules"
      "alpha" "one" "aws" [⟨some "1.0.0"⟩] hvA]
    rw [sync_module_err reg deferred "https://registry.example/v1/modules"
      "beta" "two" "aws" hvB]
    rw [sync_module_ok reg deferred "https://registry.example/v1/modules"
      "gamma" "three" "aws" [⟨some "2.0.0"⟩] hvC]
    simp only [List.foldl_cons, List.foldl_nil, List.nil_append, sync_version_events]
    rw [hsmvA, hsmvC]
    rfl
  exact ⟨_, hrun, rfl, by simp, rfl⟩

/-- Witness for C3 on a concrete registry. -/
theorem c3_partial_failure_witness :
    c3Registry.versions "https://registry.example/v1/modules/beta/two/aws/versions"
      = .error ()
    ∧ ∃ r : RunResult,
        stage_run c3Registry
          ⟨"https://registry.example/v1/modules",
            ["alpha/one/aws", "beta/two/aws", "gamma/three/aws"], [],
            Policy.immediate⟩ false
          = .ok r
        ∧ Event.moduleFailed "beta/two/aws" ∈ r.events
        ∧ r.progress_total = some 3 :=
  ⟨rfl, by
    obtain ⟨r, hr, _, hmem, htot⟩ := c3_partial_failure c3Registry false Policy.immediate
      "https://cdn.example/one-1.0.0.tar.gz" "https://cdn.example/three-2.0.0.tar.gz"
      rfl rfl rfl rfl rfl rfl rfl
    exact ⟨r, hr, hmem, htot⟩⟩

/-- C7: a version whose download descriptor lacks the `location` field
is signalled by the per-version warning, produces no content unit, and
the remaining versions of the address are still synced — the run
completes instead of failing. -/
theorem c7_missing_location (reg : Registry) (deferred : Bool) (pol : Policy)
    (loc2 : String)
    (hv : reg.versions "https://registry.example/v1/modules/hashicorp/consul/aws/versions"
        = .ok ⟨[⟨[⟨some "1.0.0"⟩, ⟨some "1.1.0"⟩]⟩]⟩)
    (hd1 : reg.download "https://registry.example/v1/modules/hashicorp/consul/aws/1.0.0/download"
        = .ok ⟨none⟩)
    (hd2 : reg.download "https://registry.example/v1/modules/hashicorp/consul/aws/1.1.0/download"
        = .ok ⟨some loc2⟩)
    (h2 : loc2.isEmpty = false) :
    ∃ r : RunResult,
      stage_run reg
        ⟨"https://registry.example/v1/modules", ["hashicorp/consul/aws"], [], pol⟩ deferred
        = .ok r
      ∧ r.events =
          [.missingLocation "hashicorp" "consul" "aws" "1.0.0",
           .declared ⟨⟨"hashicorp", "consul", "aws", "1.1.0", loc2⟩,
             ⟨loc2, "hashicorp/consul/aws/1.1.0/module.tar.gz", deferred⟩⟩,
           .progressIncrement]
      ∧ declaredOf r.events =
          [⟨⟨"hashicorp", "consul", "aws", "1.1.0", loc2⟩,
            ⟨loc2, "hashicorp/consul/aws/1.1.0/module.tar.gz", deferred⟩⟩]
      ∧ Event.missingLocation "hashicorp" "consul" "aws" "1.0.0" ∈ r.events
      ∧ ∀ dc ∈ declaredOf r.events, dc.content.version ≠ "1.0.0" := by
  have hsmv1 := sync_module_version_missing reg deferred "https://registry.example/v1/modules"
    "hashicorp" "consul" "aws" "1.0.0" hd1
  have hsmv2 := sync_module_version_ok reg deferred "https://registry.example/v1/modules"
    "hashicorp" "consul" "aws" "1.1.0" loc2 hd2 h2
  have hrun : stage_run reg
      ⟨"https://registry.example/v1/modules", ["hashicorp/consul/aws"], [], pol⟩ deferred
      = .ok { warned_no_modules := false, progress_total := some 1,
              events :=
                [.missingLocation "hashicorp" "consul" "aws" "1.0.0",
                 .declared ⟨⟨"hashicorp", "consul", "aws", "1.1.0", loc2⟩,
                   ⟨loc2, "hashicorp/consul/aws/1.1.0/module.tar.gz", deferred⟩⟩,
                 .progressIncrement] } := by
    rw [stage_run_eq reg
      ⟨"https://registry.example/v1/modules", ["hashicorp/consul/aws"], [], pol⟩ deferred
      "https://registry.example/v1/modules"
      (discover_not_wellknown reg "https://registry.example/v1/modules"
        (by decide) (by decide)) rfl]
    simp only [List.foldl_cons, List.foldl_nil, List.nil_append]
    rw [sync_one_address_eq reg
      ⟨"https://registry.example/v1/modules", ["hashicorp/consul/aws"], [], pol⟩ deferred
      "https://registry.example/v1/modules" "hashicorp/consul/aws"
      "hashicorp" "consul" "aws" (by decide) rfl]
    rw [sync_module_ok reg deferred "https://registry.example/v1/modules"
      "hashicorp" "consul" "aws" [⟨some "1.0.0"⟩, ⟨some "1.1.0"⟩] hv]
    simp only [List.foldl_cons, List.foldl_nil, List.nil_append, sync_version_events]
    rw [hsmv1, hsmv2]
    rfl
  refine ⟨_, hrun, rfl, rfl, by simp, ?_⟩
  intro dc hdc
  simp only [declaredOf, List.filterMap_cons, List.filterMap_nil,
    List.mem_cons, List.not_mem_nil, or_false] at hdc
  subst hdc
  show ("1.1.0" : String) ≠ "1.0.0"
  decide

/-- Witness for C7 on a concrete registry. -/
theorem c7_missing_location_witness :
    c7Registry.download "https://registry.example/v1/modules/hashicorp/consul/aws/1.0.0/download"
      = .ok ⟨none⟩
    ∧ ∃ r : RunResult,
        stage_run c7Registry
          ⟨"https://registry.example/v1/modules", ["hashicorp/consul/aws"], [],
            Policy.immediate⟩ false
          = .ok r
        ∧ Event.missingLocation "hashicorp" "consul" "aws" "1.0.0" ∈ r.events
        ∧ (declaredOf r.events).length = 1 :=
  ⟨rfl, by
    obtain ⟨r, hr, _, hdecl, hmem, _⟩ := c7_missing_location c7Registry false Policy.immediate
      "https://cdn.example/consul-1.1.0.tar.gz" rfl rfl rfl rfl
    exact ⟨r, hr, hmem, by rw [hdecl]; rfl⟩⟩
